import Mathlib

/-! Shallow embedding of the play-mode test orchestrator implemented in
run_play_mode_tests.py (MCPForUnity variant; the UnityMcpBridge variant
differs in its validation block and in the default value of the timeout
parameter, which is recorded here as a separate constant).

The Command Channel (async_send_command_with_retry) is an external
collaborator: its behaviour is supplied to the embedded orchestrator as
inputs — one result for the start (dispatch) call, and a finite list of
poll events describing what each status query before the timeout budget
expired returned (a raised communication fault, or a response dict).
Python dictionaries with possibly-missing keys are modelled with Option
fields; dict.get with a default becomes Option.getD. -/

/-- Embedding of the test_summary dict carried in a status response.
Each key may be absent; the code reads each with a default via .get. -/
structure TestSummary where
  total : Option Int
  passed : Option Int
  failed : Option Int
  not_run : Option Int
deriving DecidableEq

/-- Embedding of the data dict of a status response. Each key may be
absent. A missing or empty (falsy) test_summary dict is modelled as
none. -/
structure StatusData where
  workflow_status : Option String
  error_message : Option String
  test_result : Option String
  test_summary : Option TestSummary
deriving DecidableEq

/-- Embedding of one response returned by a status query: its success
flag and its data dict (a missing data key is the all-none StatusData,
matching status_response.get with an empty-dict default). -/
structure StatusResponse where
  success : Bool
  data : StatusData
deriving DecidableEq

/-- One status-poll cycle as seen by the loop body: either the channel
call raised a communication fault (caught by the inner try) or it
returned a response. -/
inductive PollEvent where
  | fault
  | resp (r : StatusResponse)
deriving DecidableEq

/-- The orchestrator-local mutable loop state: last_status and
test_started from the Python code. -/
structure PollState where
  last_status : String
  test_started : Bool
deriving DecidableEq

/-- The data dict attached to a terminal outcome: the ERROR return site
builds a workflow_status/error dict, the COMPLETED return sites build a
workflow_status/test_executed/test_result/test_summary dict. -/
inductive OutcomeData where
  | error (workflow_status : String) (error : String)
  | completed (workflow_status : String) (test_executed : Bool)
      (test_result : String) (test_summary : Option TestSummary)
deriving DecidableEq

/-- The structured result dict returned to the caller: success, message,
and an optional data dict (the timeout and validation returns carry no
data key). -/
structure Outcome where
  success : Bool
  message : String
  data : Option OutcomeData
deriving DecidableEq

/-- Result of the start (dispatch) call through the channel: either the
call raised (caught only by the outer try of run_play_mode_tests) or it
returned a response dict, which the code returns verbatim when its
success flag is not set. -/
inductive StartResult where
  | fault (msg : String)
  | ok (resp : Outcome)
deriving DecidableEq

/-- Embedding of the result_message construction in the COMPLETED branch
(lines 152-166): base text with the test description and the aggregate
test_result, plus the counts when the summary dict is truthy and its
total (default -1) is at least 0, with Not Run appended only when
positive. -/
def buildCompletedMessage (desc : String) (test_result : String)
    (ts : Option TestSummary) : String :=
  let m := "Test execution completed: " ++ desc ++ " (Result: " ++ test_result
  let m :=
    match ts with
    | some s =>
      if s.total.getD (-1) ≥ 0 then
        let tot := toString (s.total.getD 0)
        let pas := toString (s.passed.getD 0)
        let fai := toString (s.failed.getD 0)
        let nr := s.not_run.getD 0
        m ++ ", Total: " ++ tot ++ ", Passed: " ++ pas ++ ", Failed: " ++ fai ++
          (if nr > 0 then ", Not Run: " ++ toString nr else "")
      else m
    | none => m
  m ++ ")"

/-- Embedding of one iteration of the poll loop body (lines 117-196):
given the loop state and what the status query did, produce either a
terminal outcome (the loop returns) or none (the loop sleeps and
continues) together with the updated state. A raised fault is swallowed;
an unsuccessful response is skipped; on a successful response the ERROR
check comes first, then last_status is updated, then RUNNING_TEST sets
test_started, then COMPLETED returns. -/
def pollStep (desc : String) (st : PollState) (e : PollEvent) :
    Option Outcome × PollState :=
  match e with
  | .fault => (none, st)
  | .resp r =>
    if r.success then
      let ws := r.data.workflow_status.getD ""
      let em := r.data.error_message.getD ""
      if ws == "ERROR" then
        (some { success := false,
                message := "Test execution failed: " ++ em,
                data := some (.error ws em) }, st)
      else
        let st1 := if ws != st.last_status then { st with last_status := ws } else st
        if ws == "RUNNING_TEST" then
          (none, { st1 with test_started := true })
        else if ws == "COMPLETED" then
          let tr := r.data.test_result.getD "Unknown"
          let ts := r.data.test_summary
          let msg := buildCompletedMessage desc tr ts
          if st1.test_started then
            (some { success := true,
                    message := msg,
                    data := some (.completed ws true tr ts) }, st1)
          else
            (some { success := true,
                    message := msg ++ " (immediate completion)",
                    data := some (.completed ws true tr ts) }, st1)
        else (none, st1)
    else (none, st)

/-- Embedding of the two returns after the while loop exits by timeout
(lines 198-208), selected by test_started. -/
def timeoutOutcome (desc : String) (tmo : Int) (started : Bool) : Outcome :=
  if started then
    { success := false,
      message := "Timeout (" ++ toString tmo ++ "s) waiting for test to complete: " ++
        desc ++ " (test was running)",
      data := none }
  else
    { success := false,
      message := "Timeout (" ++ toString tmo ++ "s) waiting for test to start: " ++ desc,
      data := none }

/-- Embedding of the poll loop (lines 116-208): the list holds the
events of the status queries that happen before the wall-clock budget
expires; if none of them is terminal the loop exits and the timeout
outcome is produced from the final test_started flag. -/
def pollLoop (desc : String) (tmo : Int) (st : PollState) :
    List PollEvent → Outcome
  | [] => timeoutOutcome desc tmo st.test_started
  | e :: rest =>
    match pollStep desc st e with
    | (some o, _) => o
    | (none, st1) => pollLoop desc tmo st1 rest

/-- Embedding of the action-specific validation block (lines 30-64):
returns the rejection outcome when the parameter combination is wrong
for the action, none when validation passes. Python string truthiness
makes the empty string the absent value. -/
def validateArgs (action ta tc tm : String) : Option Outcome :=
  if action == "run_test_method" then
    if ta == "" || tc == "" || tm == "" then
      some { success := false,
             message := "run_test_method requires test_assembly, test_class and test_method parameters.",
             data := none }
    else none
  else if action == "run_test_class" then
    if ta == "" || tc == "" then
      some { success := false,
             message := "run_test_class requires test_assembly and test_class parameters. test_method must not be provided.",
             data := none }
    else if tm != "" then
      some { success := false,
             message := "run_test_class cannot have test_method parameter. Use run_test_method for specific method testing.",
             data := none }
    else none
  else if action == "run_test_asmdef" then
    if ta == "" then
      some { success := false,
             message := "run_test_asmdef requires test_assembly parameter. test_class and test_method must not be provided.",
             data := none }
    else if tc != "" || tm != "" then
      some { success := false,
             message := "run_test_asmdef cannot have test_class or test_method parameters. Use run_test_class or run_test_method for more specific testing.",
             data := none }
    else none
  else none

/-- Embedding of the params payload built per action (lines 66-90):
fields outside the scope of the action are cleared to the empty string
before dispatch. -/
def buildParams (action ta tc tm : String) : String × String × String :=
  if action == "run_test_method" then (ta, tc, tm)
  else if action == "run_test_class" then (ta, tc, "")
  else (ta, "", "")

/-- Embedding of the test_description construction (lines 100-106). -/
def testDescription (action ta tc tm : String) : String :=
  if action == "run_test_method" then
    "Assembly: " ++ ta ++ ", Class: " ++ tc ++ ", Method: " ++ tm
  else if action == "run_test_class" then
    "Assembly: " ++ ta ++ ", Class: " ++ tc
  else
    "Assembly: " ++ ta

/-- Embedding of the timeout clamp (line 109). -/
def clampTimeout (t : Int) : Int := max 1 (min t 600)

/-- Embedding of the whole tool function run_play_mode_tests
(MCPForUnity variant, lines 19-214): action guard, validation, dispatch
through the channel (whose behaviour is the start argument; a raised
fault propagates to the outer except and becomes the Python-error
outcome), verbatim return of an unsuccessful start response, then the
clamp and the poll loop. -/
def run_play_mode_tests (action ta tc tm : String) (timeout : Int)
    (start : StartResult) (polls : List PollEvent) : Outcome :=
  if action == "run_test_method" || action == "run_test_class" ||
      action == "run_test_asmdef" then
    match validateArgs action ta tc tm with
    | some o => o
    | none =>
      match start with
      | .fault m =>
        { success := false,
          message := "Python error in run_play_mode_tests: " ++ m,
          data := none }
      | .ok resp =>
        if resp.success then
          let desc := testDescription action ta tc tm
          pollLoop desc (clampTimeout timeout) { last_status := "", test_started := false } polls
        else resp
  else
    { success := false, message := "Unknown action: " ++ action, data := none }

/-- Default of the timeout parameter in the MCPForUnity variant of
run_play_mode_tests (line 25 of that file). -/
def timeout_default_MCPForUnity : Int := 360

/-- Default of the timeout parameter in the UnityMcpBridge variant of
run_play_mode_tests (line 22 of that file). -/
def timeout_default_UnityMcpBridge : Int := 120

/-- Calling the MCPForUnity tool with the timeout argument omitted: the
declared default is substituted. -/
def run_play_mode_tests_defaultTimeout (action ta tc tm : String)
    (start : StartResult) (polls : List PollEvent) : Outcome :=
  run_play_mode_tests action ta tc tm timeout_default_MCPForUnity start polls

/-- A poll event is terminal when its response is successful and reports
workflow_status ERROR or COMPLETED; exactly these events make the loop
body return. -/
def isTerminalEvent : PollEvent → Bool
  | .fault => false
  | .resp r =>
    r.success &&
      (r.data.workflow_status.getD "" == "ERROR" ||
       r.data.workflow_status.getD "" == "COMPLETED")

/-- A poll event observes RUNNING_TEST when its response is successful
and reports that workflow status. -/
def observesRunning : PollEvent → Bool
  | .fault => false
  | .resp r => r.success && r.data.workflow_status.getD "" == "RUNNING_TEST"

/-- The state transition a non-terminal poll event performs on the loop
state. -/
def advance (st : PollState) (e : PollEvent) : PollState :=
  match e with
  | .fault => st
  | .resp r =>
    if r.success then
      let ws := r.data.workflow_status.getD ""
      if ws == "ERROR" then st
      else
        let st1 := if ws != st.last_status then { st with last_status := ws } else st
        if ws == "RUNNING_TEST" then { st1 with test_started := true } else st1
    else st

/-- Substring test on character lists, used to state that a message
contains a given phrase. -/
def hasSub (s pat : List Char) : Bool :=
  match s with
  | [] => pat.isEmpty
  | _ :: t => pat.isPrefixOf s || hasSub t pat

/-- Substring test on strings. -/
def strContains (s pat : String) : Bool := hasSub s.data pat.data

/-- A non-terminal poll event makes the loop body produce no outcome and
advance the state. -/
theorem pollStep_of_not_terminal (desc : String) (st : PollState) (e : PollEvent)
    (h : isTerminalEvent e = false) :
    pollStep desc st e = (none, advance st e) := by
  cases e with
  | fault => rfl
  | resp r =>
    cases hs : r.success with
    | false => simp [pollStep, advance, hs]
    | true =>
      simp [isTerminalEvent, hs] at h
      obtain ⟨h1, h2⟩ := h
      simp [pollStep, advance, hs, h1, h2]
      split <;> rfl

/-- Splitting the poll loop at a prefix of non-terminal events. -/
theorem pollLoop_append (desc : String) (tmo : Int) (pre l : List PollEvent) :
    ∀ st : PollState, (∀ e ∈ pre, isTerminalEvent e = false) →
      pollLoop desc tmo st (pre ++ l) = pollLoop desc tmo (pre.foldl advance st) l := by
  induction pre with
  | nil => intro st _; rfl
  | cons e t ih =>
    intro st h
    have he : isTerminalEvent e = false := h e (by simp)
    have ht : ∀ x ∈ t, isTerminalEvent x = false := fun x hx => h x (by simp [hx])
    rw [List.cons_append, List.foldl_cons]
    have hstep : pollLoop desc tmo st (e :: (t ++ l)) =
        pollLoop desc tmo (advance st e) (t ++ l) := by
      simp [pollLoop, pollStep_of_not_terminal desc st e he]
    rw [hstep, ih (advance st e) ht]

/-- The test_started flag after one advance step. -/
theorem advance_started (st : PollState) (e : PollEvent) :
    (advance st e).test_started = (st.test_started || observesRunning e) := by
  cases e with
  | fault => simp [advance, observesRunning]
  | resp r =>
    cases hs : r.success with
    | false => simp [advance, observesRunning, hs]
    | true =>
      by_cases h1 : r.data.workflow_status.getD "" = "ERROR"
      · simp [advance, observesRunning, hs, h1]
      · by_cases h2 : r.data.workflow_status.getD "" = "RUNNING_TEST"
        · simp [advance, observesRunning, hs, h1, h2, apply_ite PollState.test_started]
        · simp [advance, observesRunning, hs, h1, h2, apply_ite PollState.test_started]

/-- The test_started flag after folding advance over a list of events. -/
theorem foldl_advance_started (pre : List PollEvent) : ∀ st : PollState,
    (pre.foldl advance st).test_started = (st.test_started || pre.any observesRunning) := by
  induction pre with
  | nil => intro st; simp
  | cons e t ih =>
    intro st
    rw [List.foldl_cons, List.any_cons, ih, advance_started, Bool.or_assoc]

/-- Claim C1: on any poll whose successful status response reports
workflow_status ERROR, after any prefix of non-terminal polls and from
any loop state (so in particular regardless of earlier RUNNING_TEST
observations), the orchestration terminates immediately with success
false and a message carrying the error_message of the snapshot; the
remaining scheduled polls are never examined and the outcome is
independent of the loop state, so the ERROR check precedes every other
interpretation of the status on that poll. -/
theorem claim_C1_error_terminal (desc : String) (tmo : Int) (st : PollState)
    (pre rest : List PollEvent) (r : StatusResponse)
    (hpre : ∀ e ∈ pre, isTerminalEvent e = false)
    (hs : r.success = true)
    (hw : r.data.workflow_status.getD "" = "ERROR") :
    pollLoop desc tmo st (pre ++ PollEvent.resp r :: rest) =
      { success := false,
        message := "Test execution failed: " ++ r.data.error_message.getD "",
        data := some (OutcomeData.error "ERROR" (r.data.error_message.getD "")) } := by
  rw [pollLoop_append desc tmo pre (PollEvent.resp r :: rest) st hpre]
  simp [pollLoop, pollStep, hs, hw]

/-- Witness for claim C1 at a concrete run: one RUNNING_TEST poll, then
an ERROR poll with error message boom. -/
theorem claim_C1_error_terminal_witness :
    (∀ e ∈ [PollEvent.resp ⟨true, ⟨some "RUNNING_TEST", none, none, none⟩⟩],
        isTerminalEvent e = false) ∧
    (((⟨true, ⟨some "ERROR", some "boom", none, none⟩⟩ : StatusResponse)).success = true) ∧
    ((⟨true, ⟨some "ERROR", some "boom", none, none⟩⟩ : StatusResponse).data.workflow_status.getD "" = "ERROR") ∧
    pollLoop "Assembly: Core" 60 ⟨"", false⟩
        ([PollEvent.resp ⟨true, ⟨some "RUNNING_TEST", none, none, none⟩⟩] ++
          PollEvent.resp ⟨true, ⟨some "ERROR", some "boom", none, none⟩⟩ :: []) =
      { success := false,
        message := "Test execution failed: " ++
          ((⟨true, ⟨some "ERROR", some "boom", none, none⟩⟩ : StatusResponse)).data.error_message.getD "",
        data := some (OutcomeData.error "ERROR"
          (((⟨true, ⟨some "ERROR", some "boom", none, none⟩⟩ : StatusResponse)).data.error_message.getD "")) } :=
  ⟨by decide, rfl, rfl,
    claim_C1_error_terminal "Assembly: Core" 60 ⟨"", false⟩
      [PollEvent.resp ⟨true, ⟨some "RUNNING_TEST", none, none, none⟩⟩] []
      ⟨true, ⟨some "ERROR", some "boom", none, none⟩⟩ (by decide) rfl rfl⟩

/-- Claim C3: a communication fault raised by a status poll is swallowed
by the loop body (no outcome, unchanged state) and the loop proceeds to
the next scheduled poll, whereas a fault raised by the start call is not
swallowed: for validated arguments the orchestration ends with the outer
Python-error outcome, whose value does not depend on the poll events, so
the polling phase is never entered. -/
theorem claim_C3_fault_asymmetry (desc : String) (tmo : Int) (st : PollState)
    (l : List PollEvent) (m : String) (action ta tc tm : String) (t : Int)
    (polls : List PollEvent)
    (hact : (action == "run_test_method" || action == "run_test_class" ||
        action == "run_test_asmdef") = true)
    (hval : validateArgs action ta tc tm = none) :
    pollStep desc st PollEvent.fault = (none, st) ∧
    pollLoop desc tmo st (PollEvent.fault :: l) = pollLoop desc tmo st l ∧
    run_play_mode_tests action ta tc tm t (StartResult.fault m) polls =
      { success := false,
        message := "Python error in run_play_mode_tests: " ++ m,
        data := none } := by
  refine ⟨rfl, by simp [pollLoop, pollStep], ?_⟩
  simp [run_play_mode_tests, hact, hval]

/-- Witness for claim C3 at a concrete run: a fault event in the loop
and a fault on dispatch for a validated run_test_asmdef request. -/
theorem claim_C3_fault_asymmetry_witness :
    (("run_test_asmdef" == "run_test_method" || "run_test_asmdef" == "run_test_class" ||
        "run_test_asmdef" == "run_test_asmdef") = true) ∧
    validateArgs "run_test_asmdef" "Core" "" "" = none ∧
    pollStep "Assembly: Core" ⟨"", false⟩ PollEvent.fault = (none, ⟨"", false⟩) ∧
    pollLoop "Assembly: Core" 60 ⟨"", false⟩ (PollEvent.fault :: []) =
      pollLoop "Assembly: Core" 60 ⟨"", false⟩ [] ∧
    run_play_mode_tests "run_test_asmdef" "Core" "" "" 60
        (StartResult.fault "connection refused") [PollEvent.fault] =
      { success := false,
        message := "Python error in run_play_mode_tests: " ++ "connection refused",
        data := none } := by
  have h := claim_C3_fault_asymmetry "Assembly: Core" 60 ⟨"", false⟩ []
    "connection refused" "run_test_asmdef" "Core" "" "" 60 [PollEvent.fault]
    (by decide) (by decide)
  exact ⟨by decide, by decide, h.1, h.2.1, h.2.2⟩

/-- Claim C10: a status response whose success flag is false is silently
discarded by the loop body: no outcome is produced, the loop state is
unchanged, and the loop proceeds to the next scheduled poll. -/
theorem claim_C10_unsuccessful_status_skipped (desc : String) (tmo : Int)
    (st : PollState) (l : List PollEvent) (r : StatusResponse)
    (h : r.success = false) :
    pollStep desc st (PollEvent.resp r) = (none, st) ∧
    pollLoop desc tmo st (PollEvent.resp r :: l) = pollLoop desc tmo st l := by
  have h1 : pollStep desc st (PollEvent.resp r) = (none, st) := by simp [pollStep, h]
  exact ⟨h1, by simp [pollLoop, h1]⟩

/-- Witness for claim C10 at a concrete unsuccessful status response. -/
theorem claim_C10_unsuccessful_status_skipped_witness :
    ((⟨false, ⟨some "ERROR", some "boom", none, none⟩⟩ : StatusResponse).success = false) ∧
    pollStep "Assembly: Core" ⟨"IDLE", true⟩
        (PollEvent.resp ⟨false, ⟨some "ERROR", some "boom", none, none⟩⟩) =
      (none, ⟨"IDLE", true⟩) ∧
    pollLoop "Assembly: Core" 60 ⟨"IDLE", true⟩
        (PollEvent.resp ⟨false, ⟨some "ERROR", some "boom", none, none⟩⟩ :: []) =
      pollLoop "Assembly: Core" 60 ⟨"IDLE", true⟩ [] := by
  have h := claim_C10_unsuccessful_status_skipped "Assembly: Core" 60 ⟨"IDLE", true⟩ []
    ⟨false, ⟨some "ERROR", some "boom", none, none⟩⟩ rfl
  exact ⟨rfl, h.1, h.2⟩

/-- The loop body on a successful COMPLETED response: a terminal outcome
with success true, the completed message, and the immediate-completion
annotation exactly when test_started is still false. -/
theorem pollStep_completed (desc : String) (st : PollState) (r : StatusResponse)
    (hs : r.success = true) (hw : r.data.workflow_status.getD "" = "COMPLETED") :
    (pollStep desc st (PollEvent.resp r)).1 =
      some { success := true,
             message :=
               (if st.test_started then
                 buildCompletedMessage desc (r.data.test_result.getD "Unknown") r.data.test_summary
               else
                 buildCompletedMessage desc (r.data.test_result.getD "Unknown") r.data.test_summary ++
                   " (immediate completion)"),
             data := some (OutcomeData.completed "COMPLETED" true
               (r.data.test_result.getD "Unknown") r.data.test_summary) } := by
  cases hb : st.test_started <;>
    simp [pollStep, hs, hw, apply_ite PollState.test_started, hb]

/-- A poll event whose loop body produces an outcome makes the loop
return that outcome. -/
theorem pollLoop_cons_terminal (desc : String) (tmo : Int) (st : PollState)
    (e : PollEvent) (rest : List PollEvent) (o : Outcome)
    (h : (pollStep desc st e).1 = some o) :
    pollLoop desc tmo st (e :: rest) = o := by
  rcases hp : pollStep desc st e with ⟨f, s⟩
  rw [hp] at h
  simp only at h
  subst h
  simp [pollLoop, hp]

/-- Claim C2: on any run whose polls pass a prefix of non-terminal
events and then a successful COMPLETED response, the orchestration
returns success true regardless of the passed and failed counts; the
message is the completed message (which embeds the aggregate test_result
and, when the summary is truthy with total at least 0, the Total, Passed
and Failed counts, with Not Run only when positive), and it carries the
immediate-completion annotation exactly when no earlier poll observed
RUNNING_TEST. -/
theorem claim_C2_completed_success (desc : String) (tmo : Int)
    (pre rest : List PollEvent) (r : StatusResponse)
    (hpre : ∀ e ∈ pre, isTerminalEvent e = false)
    (hs : r.success = true)
    (hw : r.data.workflow_status.getD "" = "COMPLETED") :
    (pollLoop desc tmo { last_status := "", test_started := false }
        (pre ++ PollEvent.resp r :: rest) =
      { success := true,
        message :=
          (if pre.any observesRunning then
            buildCompletedMessage desc (r.data.test_result.getD "Unknown") r.data.test_summary
          else
            buildCompletedMessage desc (r.data.test_result.getD "Unknown") r.data.test_summary ++
              " (immediate completion)"),
        data := some (OutcomeData.completed "COMPLETED" true
          (r.data.test_result.getD "Unknown") r.data.test_summary) }) ∧
    (∀ (d tr : String) (s : TestSummary), s.total.getD (-1) ≥ 0 →
      buildCompletedMessage d tr (some s) =
        "Test execution completed: " ++ d ++ " (Result: " ++ tr ++
        ", Total: " ++ toString (s.total.getD 0) ++
        ", Passed: " ++ toString (s.passed.getD 0) ++
        ", Failed: " ++ toString (s.failed.getD 0) ++
        (if s.not_run.getD 0 > 0 then ", Not Run: " ++ toString (s.not_run.getD 0) else "") ++
        ")") := by
  constructor
  · rw [pollLoop_append desc tmo pre (PollEvent.resp r :: rest) _ hpre]
    have hst := foldl_advance_started pre { last_status := "", test_started := false }
    simp only [Bool.false_or] at hst
    apply pollLoop_cons_terminal
    rw [pollStep_completed _ _ _ hs hw, hst]
  · intro d tr s h
    simp [buildCompletedMessage, h]

/-- Witness for claim C2 at a concrete run: one RUNNING_TEST poll, then
COMPLETED with a summary of one passed test, and a separate summary
instance with a positive Not Run count. -/
theorem claim_C2_completed_success_witness :
    (∀ e ∈ [PollEvent.resp ⟨true, ⟨some "RUNNING_TEST", none, none, none⟩⟩],
        isTerminalEvent e = false) ∧
    ((⟨true, ⟨some "COMPLETED", none, some "Passed", some ⟨some 1, some 1, some 0, some 0⟩⟩⟩ :
        StatusResponse).success = true) ∧
    ((⟨true, ⟨some "COMPLETED", none, some "Passed", some ⟨some 1, some 1, some 0, some 0⟩⟩⟩ :
        StatusResponse).data.workflow_status.getD "" = "COMPLETED") ∧
    ((⟨some 1, some 1, some 0, some 0⟩ : TestSummary).total.getD (-1) ≥ 0) ∧
    pollLoop "Assembly: Core, Class: MathTests, Method: Add" 60 ⟨"", false⟩
        ([PollEvent.resp ⟨true, ⟨some "RUNNING_TEST", none, none, none⟩⟩] ++
          PollEvent.resp ⟨true, ⟨some "COMPLETED", none, some "Passed",
            some ⟨some 1, some 1, some 0, some 0⟩⟩⟩ :: []) =
      { success := true,
        message :=
          (if ([PollEvent.resp ⟨true, ⟨some "RUNNING_TEST", none, none, none⟩⟩]).any
              observesRunning then
            buildCompletedMessage "Assembly: Core, Class: MathTests, Method: Add"
              ((⟨true, ⟨some "COMPLETED", none, some "Passed",
                  some ⟨some 1, some 1, some 0, some 0⟩⟩⟩ :
                StatusResponse).data.test_result.getD "Unknown")
              ((⟨true, ⟨some "COMPLETED", none, some "Passed",
                  some ⟨some 1, some 1, some 0, some 0⟩⟩⟩ :
                StatusResponse).data.test_summary)
          else
            buildCompletedMessage "Assembly: Core, Class: MathTests, Method: Add"
              ((⟨true, ⟨some "COMPLETED", none, some "Passed",
                  some ⟨some 1, some 1, some 0, some 0⟩⟩⟩ :
                StatusResponse).data.test_result.getD "Unknown")
              ((⟨true, ⟨some "COMPLETED", none, some "Passed",
                  some ⟨some 1, some 1, some 0, some 0⟩⟩⟩ :
                StatusResponse).data.test_summary) ++ " (immediate completion)"),
        data := some (OutcomeData.completed "COMPLETED" true
          ((⟨true, ⟨some "COMPLETED", none, some "Passed",
              some ⟨some 1, some 1, some 0, some 0⟩⟩⟩ :
            StatusResponse).data.test_result.getD "Unknown")
          ((⟨true, ⟨some "COMPLETED", none, some "Passed",
              some ⟨some 1, some 1, some 0, some 0⟩⟩⟩ :
            StatusResponse).data.test_summary)) } ∧
    buildCompletedMessage "Assembly: Core, Class: MathTests, Method: Add" "Passed"
        (some ⟨some 1, some 1, some 0, some 0⟩) =
      "Test execution completed: " ++ "Assembly: Core, Class: MathTests, Method: Add" ++
        " (Result: " ++ "Passed" ++ ", Total: " ++ toString ((some (1 : Int)).getD 0) ++
        ", Passed: " ++ toString ((some (1 : Int)).getD 0) ++
        ", Failed: " ++ toString ((some (0 : Int)).getD 0) ++
        (if ((some (0 : Int)).getD 0) > 0 then
          ", Not Run: " ++ toString ((some (0 : Int)).getD 0) else "") ++ ")" := by
  have h := claim_C2_completed_success "Assembly: Core, Class: MathTests, Method: Add" 60
    [PollEvent.resp ⟨true, ⟨some "RUNNING_TEST", none, none, none⟩⟩] []
    ⟨true, ⟨some "COMPLETED", none, some "Passed", some ⟨some 1, some 1, some 0, some 0⟩⟩⟩
    (by decide) rfl rfl
  exact ⟨by decide, rfl, rfl, by decide, h.1,
    h.2 "Assembly: Core, Class: MathTests, Method: Add" "Passed"
      ⟨some 1, some 1, some 0, some 0⟩ (by decide)⟩

/-- The two timeout messages can never coincide: the waiting-for-
completion variant is strictly longer than the waiting-to-start variant
for the same timeout and description. -/
theorem timeoutOutcome_messages_distinct (desc : String) (tmo : Int) :
    (timeoutOutcome desc tmo true).message ≠ (timeoutOutcome desc tmo false).message := by
  have h1 : (timeoutOutcome desc tmo true).message =
      "Timeout (" ++ toString tmo ++ "s) waiting for test to complete: " ++
        desc ++ " (test was running)" := rfl
  have h2 : (timeoutOutcome desc tmo false).message =
      "Timeout (" ++ toString tmo ++ "s) waiting for test to start: " ++ desc := rfl
  rw [h1, h2]
  intro heq
  have hlen := congrArg String.length heq
  simp only [String.length_append] at hlen
  have l1 : ("Timeout (" : String).length = 9 := rfl
  have l2 : ("s) waiting for test to complete: " : String).length = 33 := rfl
  have l3 : (" (test was running)" : String).length = 19 := rfl
  have l4 : ("s) waiting for test to start: " : String).length = 30 := rfl
  rw [l1, l2, l3, l4] at hlen
  omega

/-- Claim C8: when the budget expires with no terminal status observed,
the outcome is the timeout outcome selected by whether some poll
observed RUNNING_TEST; both variants have success false, the two
messages (waiting for completion versus waiting to start) are
distinguishable, and the test_started flag is monotonic: once set by a
poll it is never reset by any later non-returning poll. -/
theorem claim_C8_timeout_disambiguation (desc : String) (tmo : Int)
    (pre : List PollEvent)
    (h : ∀ e ∈ pre, isTerminalEvent e = false) :
    pollLoop desc tmo { last_status := "", test_started := false } pre =
      timeoutOutcome desc tmo (pre.any observesRunning) ∧
    (∀ started : Bool, (timeoutOutcome desc tmo started).success = false) ∧
    timeoutOutcome desc tmo true =
      { success := false,
        message := "Timeout (" ++ toString tmo ++ "s) waiting for test to complete: " ++
          desc ++ " (test was running)",
        data := none } ∧
    timeoutOutcome desc tmo false =
      { success := false,
        message := "Timeout (" ++ toString tmo ++ "s) waiting for test to start: " ++ desc,
        data := none } ∧
    (timeoutOutcome desc tmo true).message ≠ (timeoutOutcome desc tmo false).message ∧
    (∀ (st : PollState) (e : PollEvent), st.test_started = true →
      (advance st e).test_started = true) := by
  refine ⟨?_, ?_, rfl, rfl, timeoutOutcome_messages_distinct desc tmo, ?_⟩
  · have h0 : pollLoop desc tmo { last_status := "", test_started := false } pre =
        pollLoop desc tmo { last_status := "", test_started := false } (pre ++ []) := by simp
    rw [h0, pollLoop_append desc tmo pre [] _ h]
    simp [pollLoop, foldl_advance_started]
  · intro started
    cases started <;> rfl
  · intro st e hst
    rw [advance_started, hst]
    rfl

/-- Witness for claim C8 at a concrete run: a fault, an unsuccessful
response, an IDLE response and a RUNNING_TEST response, then budget
expiry; plus the monotonicity of the flag at a concrete state. -/
theorem claim_C8_timeout_disambiguation_witness :
    (∀ e ∈ [PollEvent.fault,
        PollEvent.resp ⟨false, ⟨some "ERROR", none, none, none⟩⟩,
        PollEvent.resp ⟨true, ⟨some "IDLE", none, none, none⟩⟩,
        PollEvent.resp ⟨true, ⟨some "RUNNING_TEST", none, none, none⟩⟩],
      isTerminalEvent e = false) ∧
    pollLoop "Assembly: Core" 7 ⟨"", false⟩
        [PollEvent.fault,
          PollEvent.resp ⟨false, ⟨some "ERROR", none, none, none⟩⟩,
          PollEvent.resp ⟨true, ⟨some "IDLE", none, none, none⟩⟩,
          PollEvent.resp ⟨true, ⟨some "RUNNING_TEST", none, none, none⟩⟩] =
      timeoutOutcome "Assembly: Core" 7
        (([PollEvent.fault,
            PollEvent.resp ⟨false, ⟨some "ERROR", none, none, none⟩⟩,
            PollEvent.resp ⟨true, ⟨some "IDLE", none, none, none⟩⟩,
            PollEvent.resp ⟨true, ⟨some "RUNNING_TEST", none, none, none⟩⟩]).any
          observesRunning) ∧
    (((⟨"IDLE", true⟩ : PollState).test_started = true) ∧
      (advance ⟨"IDLE", true⟩ PollEvent.fault).test_started = true) := by
  have hthm := claim_C8_timeout_disambiguation "Assembly: Core" 7
    [PollEvent.fault,
      PollEvent.resp ⟨false, ⟨some "ERROR", none, none, none⟩⟩,
      PollEvent.resp ⟨true, ⟨some "IDLE", none, none, none⟩⟩,
      PollEvent.resp ⟨true, ⟨some "RUNNING_TEST", none, none, none⟩⟩]
    (by decide)
  exact ⟨by decide, hthm.1, rfl, hthm.2.2.2.2.2 ⟨"IDLE", true⟩ PollEvent.fault rfl⟩

/-- Claim C5: the effective timeout always lies in the interval from 1
to 600; non-positive inputs resolve to 1, inputs above 600 resolve to
600, in-range inputs are unchanged, the clamp is idempotent, and for
every validated request with an accepted start the orchestration runs
the poll loop with the clamped value, so the clamp is applied before the
poll loop begins. -/
theorem claim_C5_timeout_clamp :
    (∀ t : Int, 1 ≤ clampTimeout t ∧ clampTimeout t ≤ 600) ∧
    (∀ t : Int, t ≤ 0 → clampTimeout t = 1) ∧
    (∀ t : Int, 600 < t → clampTimeout t = 600) ∧
    (∀ t : Int, 1 ≤ t → t ≤ 600 → clampTimeout t = t) ∧
    (∀ t : Int, clampTimeout (clampTimeout t) = clampTimeout t) ∧
    (∀ (action ta tc tm : String) (t : Int) (resp : Outcome) (polls : List PollEvent),
      (action == "run_test_method" || action == "run_test_class" ||
          action == "run_test_asmdef") = true →
      validateArgs action ta tc tm = none →
      resp.success = true →
      run_play_mode_tests action ta tc tm t (StartResult.ok resp) polls =
        pollLoop (testDescription action ta tc tm) (clampTimeout t)
          { last_status := "", test_started := false } polls) := by
  refine ⟨?_, ?_, ?_, ?_, ?_, ?_⟩
  · intro t; unfold clampTimeout; omega
  · intro t ht; unfold clampTimeout; omega
  · intro t ht; unfold clampTimeout; omega
  · intro t h1 h2; unfold clampTimeout; omega
  · intro t; unfold clampTimeout; omega
  · intro action ta tc tm t resp polls hact hval hok
    simp [run_play_mode_tests, hact, hval, hok]

/-- Witness for claim C5 at the concrete inputs named by the spec and a
concrete validated run_test_asmdef request with an oversized timeout. -/
theorem claim_C5_timeout_clamp_witness :
    clampTimeout 0 = 1 ∧ clampTimeout (-5) = 1 ∧ clampTimeout 601 = 600 ∧
    clampTimeout 10000 = 600 ∧ clampTimeout 45 = 45 ∧
    clampTimeout (clampTimeout 10000) = clampTimeout 10000 ∧
    run_play_mode_tests "run_test_asmdef" "Core" "" "" 10000
        (StartResult.ok { success := true, message := "", data := none }) [] =
      pollLoop (testDescription "run_test_asmdef" "Core" "" "") (clampTimeout 10000)
        { last_status := "", test_started := false } [] := by
  refine ⟨claim_C5_timeout_clamp.2.1 0 (by decide),
    claim_C5_timeout_clamp.2.1 (-5) (by decide),
    claim_C5_timeout_clamp.2.2.1 601 (by decide),
    claim_C5_timeout_clamp.2.2.1 10000 (by decide),
    claim_C5_timeout_clamp.2.2.2.1 45 (by decide) (by decide),
    claim_C5_timeout_clamp.2.2.2.2.1 10000,
    claim_C5_timeout_clamp.2.2.2.2.2 "run_test_asmdef" "Core" "" "" 10000
      { success := true, message := "", data := none } [] (by decide) (by decide) rfl⟩

/-- Claim C6: a Method-mode request in which the assembly, class or
method name is empty is rejected with success false by an outcome that
does not depend on the channel at all: neither the start result nor the
poll events occur in the result, so no dispatch and no polling takes
place. -/
theorem claim_C6_method_mode_validation (ta tc tm : String) (t : Int)
    (start : StartResult) (polls : List PollEvent)
    (h : ta = "" ∨ tc = "" ∨ tm = "") :
    run_play_mode_tests "run_test_method" ta tc tm t start polls =
      { success := false,
        message := "run_test_method requires test_assembly, test_class and test_method parameters.",
        data := none } := by
  rcases h with h | h | h <;> subst h <;> simp [run_play_mode_tests, validateArgs]

/-- Witness for claim C6 at a concrete Method-mode request with an empty
class name, an accepting channel and a COMPLETED poll available: the
rejection still wins. -/
theorem claim_C6_method_mode_validation_witness :
    (("Core" : String) = "" ∨ ("" : String) = "" ∨ ("Add" : String) = "") ∧
    run_play_mode_tests "run_test_method" "Core" "" "Add" 60
        (StartResult.ok { success := true, message := "", data := none })
        [PollEvent.resp ⟨true, ⟨some "COMPLETED", none, none, none⟩⟩] =
      { success := false,
        message := "run_test_method requires test_assembly, test_class and test_method parameters.",
        data := none } :=
  ⟨Or.inr (Or.inl rfl),
    claim_C6_method_mode_validation "Core" "" "Add" 60
      (StartResult.ok { success := true, message := "", data := none })
      [PollEvent.resp ⟨true, ⟨some "COMPLETED", none, none, none⟩⟩]
      (Or.inr (Or.inl rfl))⟩

/-- Claim C9: the completed message aggregates the summary counts only
when the summary is truthy and its total is at least 0; a missing or
falsy summary, and a summary whose total (default -1) is negative, both
yield the count-free message rather than zero counts. -/
theorem claim_C9_summary_gating :
    (∀ d tr : String, buildCompletedMessage d tr none =
      "Test execution completed: " ++ d ++ " (Result: " ++ tr ++ ")") ∧
    (∀ (d tr : String) (s : TestSummary), s.total.getD (-1) < 0 →
      buildCompletedMessage d tr (some s) =
        "Test execution completed: " ++ d ++ " (Result: " ++ tr ++ ")") ∧
    (∀ (d tr : String) (s : TestSummary), s.total.getD (-1) ≥ 0 →
      buildCompletedMessage d tr (some s) =
        "Test execution completed: " ++ d ++ " (Result: " ++ tr ++
        ", Total: " ++ toString (s.total.getD 0) ++
        ", Passed: " ++ toString (s.passed.getD 0) ++
        ", Failed: " ++ toString (s.failed.getD 0) ++
        (if s.not_run.getD 0 > 0 then ", Not Run: " ++ toString (s.not_run.getD 0) else "") ++
        ")") := by
  refine ⟨fun d tr => rfl, ?_, ?_⟩
  · intro d tr s h
    have hneg : ¬ (s.total.getD (-1) ≥ 0) := by omega
    simp [buildCompletedMessage, hneg]
  · intro d tr s h
    simp [buildCompletedMessage, h]

/-- Witness for claim C9: an absent summary, an empty summary whose
total defaults to -1, and a populated summary with zero not-run
tests. -/
theorem claim_C9_summary_gating_witness :
    buildCompletedMessage "Assembly: Core" "Passed" none =
      "Test execution completed: " ++ "Assembly: Core" ++ " (Result: " ++ "Passed" ++ ")" ∧
    ((⟨none, none, none, none⟩ : TestSummary).total.getD (-1) < 0) ∧
    buildCompletedMessage "Assembly: Core" "Passed" (some ⟨none, none, none, none⟩) =
      "Test execution completed: " ++ "Assembly: Core" ++ " (Result: " ++ "Passed" ++ ")" ∧
    ((⟨some 2, some 2, some 0, some 0⟩ : TestSummary).total.getD (-1) ≥ 0) ∧
    buildCompletedMessage "Assembly: Core" "Passed" (some ⟨some 2, some 2, some 0, some 0⟩) =
      "Test execution completed: " ++ "Assembly: Core" ++ " (Result: " ++ "Passed" ++
        ", Total: " ++ toString ((some (2 : Int)).getD 0) ++
        ", Passed: " ++ toString ((some (2 : Int)).getD 0) ++
        ", Failed: " ++ toString ((some (0 : Int)).getD 0) ++
        (if ((some (0 : Int)).getD 0) > 0 then
          ", Not Run: " ++ toString ((some (0 : Int)).getD 0) else "") ++ ")" :=
  ⟨claim_C9_summary_gating.1 "Assembly: Core" "Passed",
    by decide,
    claim_C9_summary_gating.2.1 "Assembly: Core" "Passed" ⟨none, none, none, none⟩ (by decide),
    by decide,
    claim_C9_summary_gating.2.2 "Assembly: Core" "Passed" ⟨some 2, some 2, some 0, some 0⟩
      (by decide)⟩

/-- Claim C4 counterexample: in the MCPForUnity variant the timeout
parameter defaults to 360 seconds, not 120; a call with the timeout
omitted that reaches budget expiry reports a 360 second timeout. -/
theorem claim_C4_counterexample :
    timeout_default_MCPForUnity ≠ 120 ∧
    run_play_mode_tests_defaultTimeout "run_test_asmdef" "Core" "" ""
        (StartResult.ok { success := true, message := "", data := none }) [] =
      { success := false,
        message := "Timeout (360s) waiting for test to start: Assembly: Core",
        data := none } := by
  exact ⟨by decide, by rfl⟩

/-- Claim C4 as amended: the timeout parameter defaults to 360 seconds
in the MCPForUnity variant and to 120 seconds in the UnityMcpBridge
variant, and omitting the argument in the MCPForUnity tool substitutes
its declared default. -/
theorem claim_C4_timeout_defaults :
    timeout_default_MCPForUnity = 360 ∧
    timeout_default_UnityMcpBridge = 120 ∧
    (∀ (action ta tc tm : String) (start : StartResult) (polls : List PollEvent),
      run_play_mode_tests_defaultTimeout action ta tc tm start polls =
        run_play_mode_tests action ta tc tm 360 start polls) :=
  ⟨rfl, rfl, fun _ _ _ _ _ _ => rfl⟩

/-- Claim C7 counterexample: a Class-mode request with a non-empty
method name but an empty assembly name is rejected with the
missing-parameters message, which does not direct the caller to the
Method mode (neither the word Method nor the action name
run_test_method occurs in it). -/
theorem claim_C7_counterexample :
    run_play_mode_tests "run_test_class" "" "MathTests" "Add" 60
        (StartResult.ok { success := true, message := "", data := none }) [] =
      { success := false,
        message := "run_test_class requires test_assembly and test_class parameters. test_method must not be provided.",
        data := none } ∧
    strContains "run_test_class requires test_assembly and test_class parameters. test_method must not be provided."
        "run_test_method" = false ∧
    strContains "run_test_class requires test_assembly and test_class parameters. test_method must not be provided."
        "Method" = false := by
  exact ⟨by rfl, by rfl, by rfl⟩

/-- Claim C7 as amended: every Class-mode request with a non-empty
method name is rejected with success false by an outcome independent of
the channel (no network call); when the assembly and class names are
both non-empty the rejection message is the one directing the caller to
run_test_method, which contains that action name; when the assembly or
class name is empty the missing-parameters rejection is returned
instead. -/
theorem claim_C7_class_stray_method (ta tc tm : String) (t : Int)
    (start start2 : StartResult) (polls polls2 : List PollEvent)
    (hm : tm ≠ "") :
    (run_play_mode_tests "run_test_class" ta tc tm t start polls).success = false ∧
    run_play_mode_tests "run_test_class" ta tc tm t start polls =
      run_play_mode_tests "run_test_class" ta tc tm t start2 polls2 ∧
    (ta ≠ "" → tc ≠ "" →
      run_play_mode_tests "run_test_class" ta tc tm t start polls =
        { success := false,
          message := "run_test_class cannot have test_method parameter. Use run_test_method for specific method testing.",
          data := none } ∧
      strContains "run_test_class cannot have test_method parameter. Use run_test_method for specific method testing."
        "run_test_method" = true) := by
  by_cases ha : ta = ""
  · refine ⟨?_, ?_, fun h1 _ => absurd ha h1⟩ <;>
      simp [run_play_mode_tests, validateArgs, ha]
  · by_cases hc : tc = ""
    · refine ⟨?_, ?_, fun _ h2 => absurd hc h2⟩ <;>
        simp [run_play_mode_tests, validateArgs, ha, hc]
    · refine ⟨?_, ?_, fun _ _ => ⟨?_, by rfl⟩⟩ <;>
        simp [run_play_mode_tests, validateArgs, ha, hc, hm]

/-- Witness for the amended claim C7 at a concrete Class-mode request
carrying a stray method name with both required names present. -/
theorem claim_C7_class_stray_method_witness :
    (("Add" : String) ≠ "") ∧
    (run_play_mode_tests "run_test_class" "Core" "MathTests" "Add" 60
        (StartResult.ok { success := true, message := "", data := none })
        [PollEvent.fault]).success = false ∧
    run_play_mode_tests "run_test_class" "Core" "MathTests" "Add" 60
        (StartResult.ok { success := true, message := "", data := none })
        [PollEvent.fault] =
      run_play_mode_tests "run_test_class" "Core" "MathTests" "Add" 60
        (StartResult.fault "down") [] ∧
    run_play_mode_tests "run_test_class" "Core" "MathTests" "Add" 60
        (StartResult.ok { success := true, message := "", data := none })
        [PollEvent.fault] =
      { success := false,
        message := "run_test_class cannot have test_method parameter. Use run_test_method for specific method testing.",
        data := none } ∧
    strContains "run_test_class cannot have test_method parameter. Use run_test_method for specific method testing."
      "run_test_method" = true := by
  have h := claim_C7_class_stray_method "Core" "MathTests" "Add" 60
    (StartResult.ok { success := true, message := "", data := none })
    (StartResult.fault "down") [PollEvent.fault] [] (by decide)
  have h3 := h.2.2 (by decide) (by decide)
  exact ⟨by decide, h.1, h.2.1, h3.1, h3.2⟩
